import Mathlib

/-!
Shallow embedding of the nros-core session-bus supervisor and node lifecycle
(`src/nros/core/commons.py`, `src/nros/core/node.py`) together with theorems
checking the natural-language specification against this embedding.

Python strings are modelled as `List Char`, Python dicts as ordered
association lists with in-place update, the filesystem side effects of the
supervisor as an explicit `BusState`, and subprocess spawns / signals as an
explicit action trace.
-/

/-- A Python string. -/
abbrev PyStr := List Char

/-- The single-quote character, used by `strip("'")` in `get_bus_config`. -/
def squote : Char := Char.ofNat 39

/-- The whitespace characters recognised by Python `str.strip()` with no
argument: space, tab, linefeed, carriage return, vertical tab, form feed. -/
def pySpace : List Char := [' ', '\t', '\n', '\x0d', '\x0b', '\x0c']

/-- Python `str.strip(chars)`: remove from both ends every character
satisfying `p` (all occurrences, not just one). -/
def pyStrip (p : Char → Bool) (s : List Char) : List Char :=
  ((s.dropWhile p).reverse.dropWhile p).reverse

/-- Python `str.strip()` with no argument: strip whitespace from both ends. -/
def pyStripWS (s : List Char) : List Char :=
  pyStrip (fun c => pySpace.contains c) s

/-- The value post-processing of `get_bus_config` (commons.py line 81):
`value.strip().strip(';').strip("'")`. -/
def stripValue (v : PyStr) : PyStr :=
  pyStrip (fun c => c == squote) (pyStrip (fun c => c == ';') (pyStripWS v))

/-- Lookup in a Python dict modelled as an ordered association list. -/
def pyLookup {α : Type} (d : List (PyStr × α)) (k : PyStr) : Option α :=
  (d.find? (fun p => p.1 == k)).map (fun p => p.2)

/-- A Python dict with string keys and string values. -/
abbrev PyDict := List (PyStr × PyStr)

/-- Python `d[k] = v`: overwrite in place when the key is present, append
otherwise (preserving insertion order as CPython dicts do). -/
def pyDictSet (d : PyDict) (k : PyStr) (v : PyStr) : PyDict :=
  if d.any (fun p => p.1 == k) then d.map (fun p => if p.1 == k then (k, v) else p)
  else d ++ [(k, v)]

/-- A line qualifies for `get_bus_config` iff it contains an equals sign
(commons.py line 79). -/
def lineQualifies (line : PyStr) : Bool := line.contains '='

/-- The part of the line before the first equals sign: the first component of
`line.split('=', 1)`. The key is not stripped in the source. -/
def lineKey (line : PyStr) : PyStr := line.takeWhile (fun c => c != '=')

/-- The part of the line after the first equals sign: the second component of
`line.split('=', 1)`. -/
def lineVal (line : PyStr) : PyStr := (line.dropWhile (fun c => c != '=')).tail

/-- The decoding loop of `get_bus_config` (commons.py lines 77-82 and its
verbatim duplicate node.py lines 419-424), applied to the lines of the env
file: keep the lines containing an equals sign, split each at the first one,
store `value.strip().strip(';').strip("'")` under the unmodified key. -/
def get_bus_config (lines : List PyStr) : PyDict :=
  lines.foldl
    (fun d line =>
      if lineQualifies line then pyDictSet d (lineKey line) (stripValue (lineVal line))
      else d)
    []

/-- The entry contributed by each qualifying line, in file order: the
declarative counterpart used to state what `get_bus_config` computes. -/
def busEntries (lines : List PyStr) : List (PyStr × PyStr) :=
  (lines.filter lineQualifies).map (fun l => (lineKey l, stripValue (lineVal l)))

/-- The value trimming exactly as the specification words it: surrounding
whitespace, then one optional trailing semicolon, then one optional pair of
enclosing single quotes, in that order. Stated for comparison with the
source's `stripValue`. -/
def specTrimValue (v : PyStr) : PyStr :=
  let v1 := pyStripWS v
  let v2 := if v1.getLast? = some ';' then v1.dropLast else v1
  if 2 ≤ v2.length ∧ v2.head? = some squote ∧ v2.getLast? = some squote then
    v2.tail.dropLast
  else v2

/-- The state of the host-visible resources the supervisor touches: the env
file at the well-known path `/tmp/nros-session-bus` (`none` when absent,
otherwise its content as a list of lines). -/
structure BusState where
  envFile : Option (List PyStr)
deriving DecidableEq

/-- Observable side effects of the supervisor: subprocess spawns, signals and
file deletion. -/
inductive BusAction where
  | launchBus
  | removeEnvFile
  | killPid (pid : Int)
  | monitorBus (addr : PyStr)
deriving DecidableEq

/-- The Python exceptions the embedded code can raise. `launchError` and
`monitorError` stand for the bare `Exception("... failed with rc=%d")`
raised by the source. -/
inductive PyError where
  | ioError
  | keyError (k : PyStr)
  | valueError
  | typeError
  | attributeError
  | launchError (rc : Nat)
  | monitorError (rc : Nat)
deriving DecidableEq

/-- Behaviour of one invocation of the external `dbus-launch --sh-syntax`
command: its exit code and the lines the shell redirection leaves in the env
file (possibly partial when the launcher fails). -/
structure LaunchResult where
  rc : Nat
  output : List PyStr
deriving DecidableEq

/-- `session_bus_is_running` (commons.py lines 73-74, node.py lines 415-416):
the env file exists. -/
def session_bus_is_running (s : BusState) : Bool := s.envFile.isSome

/-- `get_bus_config` as the file-reading operation: `file(DBUS_ENV_FILE)`
raises `IOError` when the env file is absent, otherwise the lines are
decoded (commons.py lines 77-82). -/
def get_bus_config_op (s : BusState) : Except PyError PyDict :=
  match s.envFile with
  | none => .error .ioError
  | some lines => .ok (get_bus_config lines)

/-- `start_session_bus` of commons.py (lines 48-62). When not running, the
shell command `dbus-launch --sh-syntax > DBUS_ENV_FILE` leaves the launcher
output in the env file via the redirection; a non-zero exit code removes the
file (the `except OSError: pass` never fires here since the redirection
created it) and raises; otherwise the decoded config is returned together
with the `is_running` flag captured before the spawn. -/
def start_session_bus (launch : LaunchResult) (s : BusState) :
    Except PyError (PyDict × Bool) × BusState × List BusAction :=
  if session_bus_is_running s then
    match get_bus_config_op s with
    | .ok d => (.ok (d, true), s, [])
    | .error e => (.error e, s, [])
  else
    let s1 : BusState := ⟨some launch.output⟩
    if launch.rc ≠ 0 then
      (.error (.launchError launch.rc), ⟨none⟩, [.launchBus, .removeEnvFile])
    else
      match get_bus_config_op s1 with
      | .ok d => (.ok (d, false), s1, [.launchBus])
      | .error e => (.error e, s1, [.launchBus])

/-- `start_session_bus` of node.py (lines 395-404): verbatim the same as the
commons.py version except that nothing removes the partially written env
file when the launcher exits non-zero. -/
def node_start_session_bus (launch : LaunchResult) (s : BusState) :
    Except PyError (PyDict × Bool) × BusState × List BusAction :=
  if session_bus_is_running s then
    match get_bus_config_op s with
    | .ok d => (.ok (d, true), s, [])
    | .error e => (.error e, s, [])
  else
    let s1 : BusState := ⟨some launch.output⟩
    if launch.rc ≠ 0 then
      (.error (.launchError launch.rc), s1, [.launchBus])
    else
      match get_bus_config_op s1 with
      | .ok d => (.ok (d, false), s1, [.launchBus])
      | .error e => (.error e, s1, [.launchBus])

/-- The key under which the transport process id is recorded. -/
def pidVar : PyStr := "DBUS_SESSION_BUS_PID".toList

/-- The key under which the transport address is recorded. -/
def addrVar : PyStr := "DBUS_SESSION_BUS_ADDRESS".toList

/-- Digit-string evaluation used by the model of Python `int(str)`: fails on
an empty string or any non-digit character. -/
def digitsToNat (s : List Char) : Option Nat :=
  match s with
  | [] => none
  | _ =>
    s.foldlM
      (fun acc c => if c.isDigit then some (acc * 10 + (c.toNat - 48)) else none) 0

/-- Python `int(str)`: surrounding whitespace is ignored, an optional sign is
followed by at least one decimal digit; anything else raises `ValueError`. -/
def pyInt (s : PyStr) : Option Int :=
  match pyStripWS s with
  | [] => none
  | c :: rest =>
    if c == '-' then (digitsToNat rest).map (fun n => -(n : Int))
    else if c == '+' then (digitsToNat rest).map (fun n => (n : Int))
    else (digitsToNat (c :: rest)).map (fun n => (n : Int))

/-- `stop_session_bus` (commons.py lines 65-70, duplicated verbatim at
node.py lines 407-412): a no-op when not running; otherwise read the config,
`os.kill(int(d['DBUS_SESSION_BUS_PID']), SIGTERM)` without waiting, then
delete the env file. -/
def stop_session_bus (s : BusState) : Except PyError Unit × BusState × List BusAction :=
  if session_bus_is_running s then
    match get_bus_config_op s with
    | .error e => (.error e, s, [])
    | .ok d =>
      match pyLookup d pidVar with
      | none => (.error (.keyError pidVar), s, [])
      | some pidStr =>
        match pyInt pidStr with
        | none => (.error .valueError, s, [])
        | some pid => (.ok (), ⟨none⟩, [.killPid pid, .removeEnvFile])
  else (.ok (), s, [])

/-- `bus_monitor` (commons.py lines 85-90): whole body guarded by
`session_bus_is_running()`, so an absent env file makes it return silently;
otherwise a blocking `dbus-monitor --address <addr>` subprocess is spawned
(its exit code is the `monRc` parameter) and a non-zero exit raises. -/
def bus_monitor (monRc : Nat) (s : BusState) : Except PyError Unit × List BusAction :=
  if session_bus_is_running s then
    match get_bus_config_op s with
    | .error e => (.error e, [])
    | .ok d =>
      match pyLookup d addrVar with
      | none => (.error (.keyError addrVar), [])
      | some addr =>
        if monRc ≠ 0 then (.error (.monitorError monRc), [.monitorBus addr])
        else (.ok (), [.monitorBus addr])
  else (.ok (), [])

/-- The attributes reachable on an `NROSNode` instance: everything bound in
the class body of node.py lines 36-389 plus the instance attributes assigned
in `__init__` (line 210) and `main` (lines 256, 260). -/
def nrosNodeAttrs : List PyStr :=
  [ "_logger".toList, "_node".toList, "_loop".toList, "_verbose".toList,
    "_debug".toList, "add_arguments_to_parser".toList, "get_mainloop".toList,
    "init_node".toList, "configure".toList, "_get_cfg_dict".toList,
    "prepare_node".toList, "setup_dbus_environment".toList, "shutdown".toList,
    "terminate".toList, "logged_message".toList, "BANNER_WIDTH".toList,
    "main".toList, "die".toList, "_sigterm_handler".toList,
    "_process_command_line".toList, "_init_dbus".toList,
    "_setup_logging".toList, "name".toList ]

/-- The lifecycle events observable while `NROSNode.main` runs, in the order
the source emits them. -/
inductive Event where
  | busEnsure
  | nodeInit
  | cfgNameLogged
  | hookConfigure
  | hookPrepare
  | busRegistered
  | hookSetupDbus
  | sigtermInstalled
  | loopRun
  | hookShutdown
  | loopQuit
deriving DecidableEq

/-- `NROSNode.terminate` (node.py lines 213-220): invoke the `shutdown` hook,
then quit the dispatch loop. -/
def terminate_events : List Event := [.hookShutdown, .loopQuit]

/-- `NROSNode._sigterm_handler` (node.py lines 300-303): the handler calls
`cls._node.terminate_ui_loop()`. The attribute lookup on the node instance
fails with `AttributeError` unless `terminate_ui_loop` is an attribute of
`NROSNode` (it is not: that name exists only on the unrelated curses `Demo`
class of demo.py). -/
def sigterm_handler : Except PyError (List Event) :=
  if nrosNodeAttrs.contains ("terminate_ui_loop".toList) then .ok terminate_events
  else .error .attributeError

/-- An open Python file object as far as the controller observes it: its
`name` attribute (the path it was opened from). -/
structure PyFile where
  name : PyStr
deriving DecidableEq

/-- The result of a successful `parser.parse_args` in
`NROSNode._process_command_line` (node.py lines 305-331): `-n` or `--name`,
`-C` or `--config` (argparse `type=file`, so a parsed value is an open file
handle and an omitted flag yields `None` since the option declares no
default), `--logger-config`, `--verbose`, `--debug`. -/
structure ParsedArgs where
  name : Option PyStr
  config : Option PyFile
  log_cfg : Option PyFile
  verbose : Bool
  debug : Bool
deriving DecidableEq

/-- Python attribute access `config.name` on the parsed `-C` value: `None`
has no `name` attribute, an open file reports its path. Used by `main` at
node.py line 265. -/
def configName (config : Option PyFile) : Except PyError PyStr :=
  match config with
  | none => .error .attributeError
  | some f => .ok f.name

/-- What the concrete node subclass does in each overridable hook: `none`
means the hook returns normally, `some e` means it raises `e`. The base
implementations of node.py all do nothing. -/
structure HookBehavior where
  configureError : Option PyError
  prepareError : Option PyError
  setupError : Option PyError
  shutdownError : Option PyError
deriving DecidableEq

/-- Decimal digits of `n`, accumulator form with explicit fuel (the fuel `n`
itself is always sufficient since the argument shrinks by a factor 10). -/
def natDigitsAux (fuel : Nat) (n : Nat) (acc : List Char) : List Char :=
  match fuel with
  | 0 => acc
  | fuel + 1 =>
    if n = 0 then acc
    else natDigitsAux fuel (n / 10) (Char.ofNat (48 + n % 10) :: acc)

/-- The `%d` conversion of a (non-negative) process id. -/
def natDigits (n : Nat) : List Char :=
  if n = 0 then [Char.ofNat 48] else natDigitsAux n n []

/-- The name resolution of `NROSNode.__init__` (node.py lines 206-207):
`if not name: name = 'nros.%s-%d' % (self.__class__.__name__, os.getpid())`.
A falsy argument (absent or empty) selects the generated name. -/
def resolve_node_name (clsName : PyStr) (pid : Nat) (name : Option PyStr) : PyStr :=
  let falsy := match name with | none => true | some s => s.isEmpty
  if falsy then "nros.".toList ++ clsName ++ ('-' :: natDigits pid)
  else name.getD []

/-- Outcome of a run of `NROSNode.main`: the function returned (the process
then exits 0), `sys.exit(code)` was reached via `die`, or an exception
escaped `main` uncaught. -/
inductive MainResult where
  | finished
  | exited (code : Nat)
  | crashed (e : PyError)
deriving DecidableEq

/-- `NROSNode.main` (node.py lines 237-288) after command-line parsing and
logging setup, driving a node whose hooks behave as `hb`:
`_init_dbus` runs node.py's `start_session_bus` (an uncaught failure crashes
`main`); the node is constructed (`__init__` runs `init_node`); the `try`
block first evaluates `args.config.name` for the log line and then calls
`configure`, and any exception there is caught and routed to `die` which
calls `sys.exit(1)`; `prepare_node`, the bus registration and
`setup_dbus_environment` run unprotected; the SIGTERM handler is installed
only after registration; the dispatch loop runs and a `KeyboardInterrupt`
(modelled by `loopInterrupted`) triggers `node.terminate()`. -/
def NROSNode_main (args : ParsedArgs) (hb : HookBehavior) (launch : LaunchResult)
    (bus : BusState) (loopInterrupted : Bool) : MainResult × List Event :=
  match (node_start_session_bus launch bus).1 with
  | .error e => (.crashed e, [])
  | .ok _ =>
    let ev0 : List Event := [.busEnsure, .nodeInit]
    match configName args.config with
    | .error _ => (.exited 1, ev0)
    | .ok _ =>
      let ev1 := ev0 ++ [.cfgNameLogged, .hookConfigure]
      match hb.configureError with
      | some _ => (.exited 1, ev1)
      | none =>
        let ev2 := ev1 ++ [.hookPrepare]
        match hb.prepareError with
        | some e => (.crashed e, ev2)
        | none =>
          let ev3 := ev2 ++ [.busRegistered, .hookSetupDbus]
          match hb.setupError with
          | some e => (.crashed e, ev3)
          | none =>
            let ev4 := ev3 ++ [.sigtermInstalled, .loopRun]
            if loopInterrupted then
              match hb.shutdownError with
              | some e => (.crashed e, ev4 ++ [.hookShutdown])
              | none => (.finished, ev4 ++ terminate_events)
            else (.finished, ev4)

/-- A Python value as far as `_get_cfg_dict` inspects it. An open file object
carries the outcome of `json.load` on it (`none` models malformed JSON, in
which case the load raises `ValueError`). -/
inductive PyVal where
  | pynone
  | pybool (b : Bool)
  | pyint (n : Int)
  | pystr (s : PyStr)
  | pylist (size : Nat)
  | pydict (entries : List (PyStr × PyStr))
  | pyfile (loaded : Option (List (PyStr × PyStr)))
deriving DecidableEq

/-- Python truthiness (`not cfg` at node.py line 144) for the modelled
values: `None`, `False`, `0`, empty string, empty list, empty dict are
falsy; an open file object is always truthy. -/
def pyFalsy : PyVal → Bool
  | .pynone => true
  | .pybool b => !b
  | .pyint n => n == 0
  | .pystr s => s.isEmpty
  | .pylist size => size == 0
  | .pydict d => d.isEmpty
  | .pyfile _ => false

/-- A filesystem for the path branch of `_get_cfg_dict`: a path maps to the
`json.load` outcome of the file at that path; a path not in the list does
not exist, so `file(cfg, 'rt')` raises `IOError` there. -/
abbrev JsonFS := List (PyStr × Option (List (PyStr × PyStr)))

/-- `NROSNode._get_cfg_dict` (node.py lines 131-157): falsy input yields an
empty dict; a dict passes through unchanged; a file object is `json.load`ed;
a string is opened and `json.load`ed; anything else raises `TypeError`.
Malformed JSON raises `ValueError` (from `json.load`). -/
def get_cfg_dict (fs : JsonFS) (cfg : PyVal) : Except PyError PyVal :=
  if pyFalsy cfg then .ok (.pydict [])
  else
    match cfg with
    | .pydict d => .ok (.pydict d)
    | .pyfile loaded =>
      match loaded with
      | some d => .ok (.pydict d)
      | none => .error .valueError
    | .pystr path =>
      match pyLookup fs path with
      | none => .error .ioError
      | some (some d) => .ok (.pydict d)
      | some none => .error .valueError
    | _ => .error .typeError

/-- The normalization rule restated directly case by case, as the amended
claim words it: falsy values of every type yield the empty mapping; a
(necessarily non-empty) dict passes through; a file object is parsed as
JSON; a non-empty path string is opened and parsed; any other truthy value
raises `TypeError`; malformed JSON raises `ValueError`. Written from the
amended wording, for comparison with `get_cfg_dict`. -/
def cfg_normalize_amended (fs : JsonFS) (cfg : PyVal) : Except PyError PyVal :=
  match cfg with
  | .pynone => .ok (.pydict [])
  | .pybool b => if b then .error .typeError else .ok (.pydict [])
  | .pyint n => if n = 0 then .ok (.pydict []) else .error .typeError
  | .pylist size => if size = 0 then .ok (.pydict []) else .error .typeError
  | .pydict d => .ok (.pydict d)
  | .pyfile (some d) => .ok (.pydict d)
  | .pyfile none => .error .valueError
  | .pystr [] => .ok (.pydict [])
  | .pystr (c :: path) =>
    match pyLookup fs (c :: path) with
    | none => .error .ioError
    | some (some d) => .ok (.pydict d)
    | some none => .error .valueError

theorem pyLookup_nil {α : Type} (k : PyStr) :
    pyLookup ([] : List (PyStr × α)) k = none := rfl

theorem pyLookup_cons {α : Type} (p : PyStr × α) (d : List (PyStr × α)) (k : PyStr) :
    pyLookup (p :: d) k = if p.1 = k then some p.2 else pyLookup d k := by
  by_cases h : p.1 = k
  · simp [pyLookup, List.find?_cons_of_pos, h]
  · rw [pyLookup, List.find?_cons_of_neg _ (by simp [h]), if_neg h]; rfl

theorem find?_update_ne (d : PyDict) (k v k' : PyStr) (h : k' ≠ k) :
    (d.map (fun p => if p.1 == k then (k, v) else p)).find? (fun p => p.1 == k') =
      d.find? (fun p => p.1 == k') := by
  induction d with
  | nil => rfl
  | cons p d ih =>
    by_cases hp : p.1 = k
    · rw [List.map_cons, if_pos (by simp [hp])]
      rw [List.find?_cons_of_neg _ (by simp; exact fun hh => h hh.symm),
        List.find?_cons_of_neg _ (by simp [hp]; exact fun hh => h hh.symm)]
      exact ih
    · rw [List.map_cons, if_neg (by simp [hp])]
      by_cases hk' : p.1 = k'
      · rw [List.find?_cons_of_pos _ (by simp [hk']),
          List.find?_cons_of_pos _ (by simp [hk'])]
      · rw [List.find?_cons_of_neg _ (by simp [hk']),
          List.find?_cons_of_neg _ (by simp [hk'])]
        exact ih

theorem find?_update_self (d : PyDict) (k v : PyStr)
    (h : d.any (fun p => p.1 == k) = true) :
    (d.map (fun p => if p.1 == k then (k, v) else p)).find? (fun p => p.1 == k) =
      some (k, v) := by
  induction d with
  | nil => simp at h
  | cons p d ih =>
    by_cases hp : p.1 = k
    · rw [List.map_cons, if_pos (by simp [hp])]
      rw [List.find?_cons_of_pos _ (by simp)]
    · rw [List.map_cons, if_neg (by simp [hp])]
      rw [List.find?_cons_of_neg _ (by simp [hp])]
      exact ih (by simpa [hp] using h)

theorem pyLookup_pyDictSet (d : PyDict) (k v k' : PyStr) :
    pyLookup (pyDictSet d k v) k' = if k' = k then some v else pyLookup d k' := by
  unfold pyDictSet
  by_cases hany : d.any (fun p => p.1 == k) = true
  · rw [if_pos hany]
    by_cases hk : k' = k
    · subst hk
      unfold pyLookup
      rw [find?_update_self d k' v hany]
      simp
    · unfold pyLookup
      rw [find?_update_ne d k v k' hk, if_neg hk]
  · rw [if_neg hany]
    unfold pyLookup
    rw [List.find?_append]
    cases hfd : d.find? (fun p => p.1 == k') with
    | some q =>
      have hq : (q.1 == k') = true := by
        have hv := List.find?_some hfd
        exact hv
      have hmem : q ∈ d := List.mem_of_find?_eq_some hfd
      have hk : k' ≠ k := by
        intro hkk
        subst hkk
        exact hany (List.any_eq_true.mpr ⟨q, hmem, hq⟩)
      rw [if_neg hk]
      simp [Option.orElse]
    | none =>
      by_cases hk : k' = k
      · subst hk
        simp [Option.orElse, List.find?]
      · rw [if_neg hk]
        have : ((k, v).1 == k') = false := by simp [Ne.symm hk]
        simp [Option.orElse, List.find?, this]

theorem busdecode_foldl (lines : List PyStr) (d : PyDict) (k : PyStr) :
    pyLookup
        (lines.foldl
          (fun d line =>
            if lineQualifies line then pyDictSet d (lineKey line) (stripValue (lineVal line))
            else d)
          d) k =
      match (busEntries lines).reverse.find? (fun p => p.1 == k) with
      | some e => some e.2
      | none => pyLookup d k := by
  induction lines generalizing d with
  | nil => simp [busEntries]
  | cons l ls ih =>
    rw [List.foldl_cons, ih]
    by_cases hq : lineQualifies l = true
    · rw [if_pos hq]
      have hbe : busEntries (l :: ls) =
          (lineKey l, stripValue (lineVal l)) :: busEntries ls := by
        simp [busEntries, hq]
      rw [hbe, List.reverse_cons, List.find?_append]
      cases hfd : (busEntries ls).reverse.find? (fun p => p.1 == k) with
      | some e => simp [Option.orElse]
      | none =>
        rw [pyLookup_pyDictSet]
        by_cases hk : lineKey l = k
        · simp [Option.orElse, List.find?, hk]
        · have hbeq : ((lineKey l, stripValue (lineVal l)).1 == k) = false := by
            simp [hk]
          have hk2 : ¬k = lineKey l := fun h => hk h.symm
          simp [Option.orElse, List.find?, hbeq, hk2]
    · rw [if_neg hq]
      have hbe : busEntries (l :: ls) = busEntries ls := by
        simp [busEntries, hq]
      rw [hbe]

/-- C3 (amended): `get_bus_config` processes its input line by line; exactly
the lines containing an equals sign contribute an entry, split at the first
equals sign; the value is trimmed of surrounding whitespace, then of all
leading and trailing semicolons, then of all leading and trailing single
quotes, in that order; lines without an equals sign are skipped silently; on
duplicate keys the last occurrence wins (the lookup of any key equals the
value of the last qualifying line carrying it); empty input yields the empty
mapping. -/
theorem get_bus_config_characterization (lines : List PyStr) (k : PyStr) :
    pyLookup (get_bus_config lines) k =
      ((busEntries lines).reverse.find? (fun p => p.1 == k)).map (fun p => p.2) ∧
    get_bus_config [] = [] := by
  constructor
  · rw [get_bus_config, busdecode_foldl]
    cases hfd : (busEntries lines).reverse.find? (fun p => p.1 == k) with
    | some e => simp
    | none => simp [pyLookup]
  · rfl

/-- C3 counterexample: on the single line `A=x;;` the code stores the value
`x` (both trailing semicolons stripped), while trimming the value the way
the claim words it (one optional trailing semicolon) would leave `x;`. -/
theorem get_bus_config_trim_counterexample :
    pyLookup (get_bus_config [("A=x;;".toList)]) ("A".toList) = some ("x".toList) ∧
    specTrimValue ("x;;".toList) = ("x;".toList) ∧
    stripValue ("x;;".toList) ≠ specTrimValue ("x;;".toList) := by decide

/-- C2: `start_session_bus` on a non-running bus with a succeeding launcher
spawns exactly one launcher invocation, returns the config decoded from what
the launcher wrote with `alreadyRunning = false`, and leaves
`session_bus_is_running` true; an immediately repeated call (whatever its
launcher would do) spawns nothing, changes nothing, and returns the same
decoded config with `alreadyRunning = true`. -/
theorem start_session_bus_idempotent (s : BusState) (l1 l2 : LaunchResult)
    (hnr : session_bus_is_running s = false) (hrc : l1.rc = 0) :
    start_session_bus l1 s =
      (.ok (get_bus_config l1.output, false), ⟨some l1.output⟩, [.launchBus]) ∧
    session_bus_is_running (start_session_bus l1 s).2.1 = true ∧
    start_session_bus l2 (start_session_bus l1 s).2.1 =
      (.ok (get_bus_config l1.output, true), ⟨some l1.output⟩, []) ∧
    (∀ (s2 : BusState) (lines2 : List PyStr), s2.envFile = some lines2 →
      start_session_bus l2 s2 = (.ok (get_bus_config lines2, true), s2, [])) := by
  have h1 : start_session_bus l1 s =
      (.ok (get_bus_config l1.output, false), ⟨some l1.output⟩, [.launchBus]) := by
    simp [start_session_bus, hnr, hrc, get_bus_config_op]
  refine ⟨h1, ?_, ?_, ?_⟩
  · rw [h1]; rfl
  · rw [h1]
    simp [start_session_bus, session_bus_is_running, get_bus_config_op]
  · intro s2 lines2 h2
    simp [start_session_bus, session_bus_is_running, h2, get_bus_config_op]

/-- C2 witness: a concrete non-running state and a concrete launcher
outcome. -/
theorem start_session_bus_idempotent_witness :
    start_session_bus ⟨0, [("DBUS_SESSION_BUS_PID=42".toList)]⟩ ⟨Option.none⟩ =
      (.ok (get_bus_config [("DBUS_SESSION_BUS_PID=42".toList)], false),
        ⟨some [("DBUS_SESSION_BUS_PID=42".toList)]⟩, [.launchBus]) ∧
    session_bus_is_running
      (start_session_bus ⟨0, [("DBUS_SESSION_BUS_PID=42".toList)]⟩ ⟨Option.none⟩).2.1 = true ∧
    start_session_bus ⟨7, []⟩
        (start_session_bus ⟨0, [("DBUS_SESSION_BUS_PID=42".toList)]⟩ ⟨Option.none⟩).2.1 =
      (.ok (get_bus_config [("DBUS_SESSION_BUS_PID=42".toList)], true),
        ⟨some [("DBUS_SESSION_BUS_PID=42".toList)]⟩, []) ∧
    (∀ (s2 : BusState) (lines2 : List PyStr), s2.envFile = some lines2 →
      start_session_bus ⟨7, []⟩ s2 = (.ok (get_bus_config lines2, true), s2, [])) :=
  start_session_bus_idempotent ⟨Option.none⟩ ⟨0, [("DBUS_SESSION_BUS_PID=42".toList)]⟩
    ⟨7, []⟩ rfl rfl

/-- C5 counterexample: `bus_monitor` invoked with the env file absent
returns silently with no subprocess spawned, instead of failing as the claim
states. -/
theorem bus_monitor_absent_counterexample :
    bus_monitor 0 ⟨Option.none⟩ = (Except.ok (), ([] : List BusAction)) := by rfl

/-- C5 (amended): with the env file absent, `get_bus_config` fails with the
file-open error (the abstraction the spec names `NotRunningError`) rather
than returning an empty mapping, while `bus_monitor` silently returns
without spawning a monitor subprocess. -/
theorem absent_env_file_behaviour (s : BusState) (rc : Nat)
    (h : session_bus_is_running s = false) :
    get_bus_config_op s = .error .ioError ∧
    (∀ d : PyDict, get_bus_config_op s ≠ .ok d) ∧
    bus_monitor rc s = (.ok (), []) := by
  have he : s.envFile = none := by
    cases hs : s.envFile
    · rfl
    · rw [session_bus_is_running, hs] at h
      simp at h
  refine ⟨?_, ?_, ?_⟩
  · simp [get_bus_config_op, he]
  · intro d hd
    rw [get_bus_config_op, he] at hd
    exact Except.noConfusion hd
  · simp [bus_monitor, session_bus_is_running, he]

/-- C5 witness: the concrete absent-file state. -/
theorem absent_env_file_behaviour_witness :
    get_bus_config_op ⟨Option.none⟩ = .error .ioError ∧
    (∀ d : PyDict, get_bus_config_op ⟨Option.none⟩ ≠ .ok d) ∧
    bus_monitor 3 ⟨Option.none⟩ = (.ok (), []) :=
  absent_env_file_behaviour ⟨Option.none⟩ 3 rfl

/-- C6 counterexample: the `start_session_bus` duplicate in node.py (the one
the node bootstrap and the CLI entry points import), run on a non-running
bus whose launcher exits 1 after partially writing `X=1`, raises the launch
error but leaves the partially written env file in place, so the bus then
reads as running. -/
theorem node_start_launch_failure_counterexample :
    (node_start_session_bus ⟨1, [("X=1".toList)]⟩ ⟨Option.none⟩).1 =
      .error (.launchError 1) ∧
    (node_start_session_bus ⟨1, [("X=1".toList)]⟩ ⟨Option.none⟩).2.1.envFile =
      some [("X=1".toList)] ∧
    session_bus_is_running
      (node_start_session_bus ⟨1, [("X=1".toList)]⟩ ⟨Option.none⟩).2.1 = true := by
  refine ⟨rfl, rfl, rfl⟩

/-- C6 (amended): on a non-running bus with a launcher exiting non-zero, the
commons.py `start_session_bus` removes the partially written env file
(ignoring removal errors) and fails with the launch error carrying the exit
code, returning no config; the node.py duplicate used by the node bootstrap
raises the same launch error but leaves the partially written env file in
place. -/
theorem start_session_bus_launch_failure (l : LaunchResult) (s : BusState)
    (hnr : session_bus_is_running s = false) (hrc : l.rc ≠ 0) :
    start_session_bus l s =
      (.error (.launchError l.rc), ⟨Option.none⟩, [.launchBus, .removeEnvFile]) ∧
    session_bus_is_running (start_session_bus l s).2.1 = false ∧
    node_start_session_bus l s =
      (.error (.launchError l.rc), ⟨some l.output⟩, [.launchBus]) ∧
    session_bus_is_running (node_start_session_bus l s).2.1 = true := by
  have h1 : start_session_bus l s =
      (.error (.launchError l.rc), ⟨Option.none⟩, [.launchBus, .removeEnvFile]) := by
    simp [start_session_bus, hnr, hrc]
  have h2 : node_start_session_bus l s =
      (.error (.launchError l.rc), ⟨some l.output⟩, [.launchBus]) := by
    simp [node_start_session_bus, hnr, hrc]
  exact ⟨h1, by rw [h1]; rfl, h2, by rw [h2]; rfl⟩

/-- C6 witness: concrete launcher failure with exit code 1. -/
theorem start_session_bus_launch_failure_witness :
    start_session_bus ⟨1, [("X=1".toList)]⟩ ⟨Option.none⟩ =
      (.error (.launchError 1), ⟨Option.none⟩, [.launchBus, .removeEnvFile]) ∧
    session_bus_is_running
      (start_session_bus ⟨1, [("X=1".toList)]⟩ ⟨Option.none⟩).2.1 = false ∧
    node_start_session_bus ⟨1, [("X=1".toList)]⟩ ⟨Option.none⟩ =
      (.error (.launchError 1), ⟨some [("X=1".toList)]⟩, [.launchBus]) ∧
    session_bus_is_running
      (node_start_session_bus ⟨1, [("X=1".toList)]⟩ ⟨Option.none⟩).2.1 = true :=
  start_session_bus_launch_failure ⟨1, [("X=1".toList)]⟩ ⟨Option.none⟩ rfl
    (by decide)

/-- C7: `stop_session_bus` on a running bus whose config records a parseable
pid reads the config, sends the termination signal to exactly that pid with
no waiting or confirmation recorded, and deletes the env file, after which
`session_bus_is_running` is false; on a non-running bus it is a no-op that
returns normally, performs no action, and leaves `session_bus_is_running`
false. -/
theorem stop_session_bus_spec (s : BusState) (lines : List PyStr)
    (pidStr : PyStr) (pid : Int)
    (hf : s.envFile = some lines)
    (hpid : pyLookup (get_bus_config lines) pidVar = some pidStr)
    (hint : pyInt pidStr = some pid) :
    stop_session_bus s = (.ok (), ⟨Option.none⟩, [.killPid pid, .removeEnvFile]) ∧
    session_bus_is_running (stop_session_bus s).2.1 = false ∧
    (∀ s2 : BusState, session_bus_is_running s2 = false →
      stop_session_bus s2 = (.ok (), s2, []) ∧
      session_bus_is_running (stop_session_bus s2).2.1 = false) := by
  have h1 : stop_session_bus s =
      (.ok (), ⟨Option.none⟩, [.killPid pid, .removeEnvFile]) := by
    simp [stop_session_bus, session_bus_is_running, hf, get_bus_config_op, hpid, hint]
  refine ⟨h1, by rw [h1]; rfl, ?_⟩
  intro s2 h2
  have h3 : stop_session_bus s2 = (.ok (), s2, []) := by
    simp [stop_session_bus, h2]
  exact ⟨h3, by rw [h3]; exact h2⟩

/-- C7 witness: a concrete running state recording pid 123 and a concrete
non-running state. -/
theorem stop_session_bus_spec_witness :
    stop_session_bus ⟨some [("DBUS_SESSION_BUS_PID=123".toList)]⟩ =
      (.ok (), ⟨Option.none⟩, [.killPid 123, .removeEnvFile]) ∧
    session_bus_is_running
      (stop_session_bus ⟨some [("DBUS_SESSION_BUS_PID=123".toList)]⟩).2.1 = false ∧
    (∀ s2 : BusState, session_bus_is_running s2 = false →
      stop_session_bus s2 = (.ok (), s2, []) ∧
      session_bus_is_running (stop_session_bus s2).2.1 = false) :=
  stop_session_bus_spec ⟨some [("DBUS_SESSION_BUS_PID=123".toList)]⟩
    [("DBUS_SESSION_BUS_PID=123".toList)] ("123".toList) 123 rfl (by decide)
    (by decide)

/-- C1 (code bug): the installed SIGTERM handler calls
`cls._node.terminate_ui_loop()`, but `terminate_ui_loop` is not among the
attributes of an `NROSNode` instance (that method exists only on the curses
`Demo` class), so the handler raises `AttributeError` instead of invoking
`terminate()`; the `shutdown` hook and the loop quit that `terminate()`
would perform never happen on SIGTERM, although `terminate` itself exists
and its docstring promises that kill signals trigger the termination stage. -/
theorem sigterm_handler_attribute_error :
    sigterm_handler = .error .attributeError ∧
    nrosNodeAttrs.contains ("terminate_ui_loop".toList) = false ∧
    nrosNodeAttrs.contains ("terminate".toList) = true ∧
    terminate_events = [Event.hookShutdown, Event.loopQuit] :=
  ⟨rfl, by decide, by decide, rfl⟩

/-- C9 counterexample: a node of class `Foo` in process 5 constructed
without a name is named `nros.Foo-5`, not `Foo-5` as the claim states. -/
theorem resolve_node_name_counterexample :
    resolve_node_name ("Foo".toList) 5 Option.none = ("nros.Foo-5".toList) ∧
    resolve_node_name ("Foo".toList) 5 Option.none ≠ ("Foo-5".toList) := by decide

/-- C9 (amended): a node constructed without an explicit (non-empty) name is
given the generated identity `nros.<type>-<pid>`; an explicit non-empty name
is used unchanged; an explicit empty name is treated like an absent one. -/
theorem resolve_node_name_spec (cls : PyStr) (pid : Nat) (n : PyStr)
    (hn : n ≠ []) :
    resolve_node_name cls pid (some n) = n ∧
    resolve_node_name cls pid Option.none =
      ("nros.".toList) ++ cls ++ ('-' :: natDigits pid) ∧
    resolve_node_name cls pid (some []) =
      ("nros.".toList) ++ cls ++ ('-' :: natDigits pid) := by
  refine ⟨?_, rfl, rfl⟩
  simp [resolve_node_name, hn]

/-- C9 witness: explicit name `myname` pass-through and generated names at
class `Foo`, pid 7. -/
theorem resolve_node_name_spec_witness :
    resolve_node_name ("Foo".toList) 7 (some ("myname".toList)) = ("myname".toList) ∧
    resolve_node_name ("Foo".toList) 7 Option.none =
      ("nros.".toList) ++ ("Foo".toList) ++ ('-' :: natDigits 7) ∧
    resolve_node_name ("Foo".toList) 7 (some []) =
      ("nros.".toList) ++ ("Foo".toList) ++ ('-' :: natDigits 7) :=
  resolve_node_name_spec ("Foo".toList) 7 ("myname".toList) (by decide)

/-- C4: when the `configure` hook raises, `main` catches the exception and
aborts fatally via `die` with exit status 1; `prepare_node`, the bus
registration and the dispatch loop are never entered. -/
theorem configure_error_fatal_abort (args : ParsedArgs) (hb : HookBehavior)
    (launch : LaunchResult) (bus : BusState) (li : Bool) (f : PyFile)
    (e : PyError) (lines : List PyStr)
    (hbus : bus.envFile = some lines)
    (hcfg : args.config = some f) (herr : hb.configureError = some e) :
    (NROSNode_main args hb launch bus li).1 = .exited 1 ∧
    Event.hookConfigure ∈ (NROSNode_main args hb launch bus li).2 ∧
    Event.hookPrepare ∉ (NROSNode_main args hb launch bus li).2 ∧
    Event.busRegistered ∉ (NROSNode_main args hb launch bus li).2 ∧
    Event.loopRun ∉ (NROSNode_main args hb launch bus li).2 := by
  have hmain : NROSNode_main args hb launch bus li =
      (.exited 1, [.busEnsure, .nodeInit, .cfgNameLogged, .hookConfigure]) := by
    simp [NROSNode_main, node_start_session_bus, session_bus_is_running, hbus,
      get_bus_config_op, configName, hcfg, herr]
  rw [hmain]
  refine ⟨rfl, by decide, by decide, by decide, by decide⟩

/-- C4 witness: a concrete running bus, a config handle and a configure hook
raising a `ValueError`. -/
theorem configure_error_fatal_abort_witness :
    (NROSNode_main ⟨Option.none, some ⟨("cfg.json".toList)⟩, Option.none, false, false⟩
        ⟨some .valueError, Option.none, Option.none, Option.none⟩ ⟨0, []⟩
        ⟨some []⟩ false).1 = .exited 1 ∧
    Event.hookConfigure ∈ (NROSNode_main
        ⟨Option.none, some ⟨("cfg.json".toList)⟩, Option.none, false, false⟩
        ⟨some .valueError, Option.none, Option.none, Option.none⟩ ⟨0, []⟩
        ⟨some []⟩ false).2 ∧
    Event.hookPrepare ∉ (NROSNode_main
        ⟨Option.none, some ⟨("cfg.json".toList)⟩, Option.none, false, false⟩
        ⟨some .valueError, Option.none, Option.none, Option.none⟩ ⟨0, []⟩
        ⟨some []⟩ false).2 ∧
    Event.busRegistered ∉ (NROSNode_main
        ⟨Option.none, some ⟨("cfg.json".toList)⟩, Option.none, false, false⟩
        ⟨some .valueError, Option.none, Option.none, Option.none⟩ ⟨0, []⟩
        ⟨some []⟩ false).2 ∧
    Event.loopRun ∉ (NROSNode_main
        ⟨Option.none, some ⟨("cfg.json".toList)⟩, Option.none, false, false⟩
        ⟨some .valueError, Option.none, Option.none, Option.none⟩ ⟨0, []⟩
        ⟨some []⟩ false).2 :=
  configure_error_fatal_abort
    ⟨Option.none, some ⟨("cfg.json".toList)⟩, Option.none, false, false⟩
    ⟨some .valueError, Option.none, Option.none, Option.none⟩ ⟨0, []⟩ ⟨some []⟩
    false ⟨("cfg.json".toList)⟩ .valueError [] rfl rfl rfl

/-- C10: when the `-C` flag is omitted the parsed config is `None`; reading
its `name` attribute for the log line raises `AttributeError` before
`configure` is ever invoked, the exception is caught and converted into a
fatal abort with exit status 1, and `prepare_node`, the registration and the
dispatch loop are never reached. -/
theorem missing_config_fatal_abort (args : ParsedArgs) (hb : HookBehavior)
    (launch : LaunchResult) (bus : BusState) (li : Bool) (lines : List PyStr)
    (hbus : bus.envFile = some lines) (hcfg : args.config = Option.none) :
    configName args.config = .error .attributeError ∧
    (NROSNode_main args hb launch bus li).1 = .exited 1 ∧
    Event.hookConfigure ∉ (NROSNode_main args hb launch bus li).2 ∧
    Event.hookPrepare ∉ (NROSNode_main args hb launch bus li).2 ∧
    Event.busRegistered ∉ (NROSNode_main args hb launch bus li).2 ∧
    Event.loopRun ∉ (NROSNode_main args hb launch bus li).2 := by
  have hmain : NROSNode_main args hb launch bus li =
      (.exited 1, [.busEnsure, .nodeInit]) := by
    simp [NROSNode_main, node_start_session_bus, session_bus_is_running, hbus,
      get_bus_config_op, configName, hcfg]
  rw [hmain, hcfg]
  refine ⟨rfl, rfl, by decide, by decide, by decide, by decide⟩

/-- C10 witness: a run with the `-C` flag omitted on a running bus. -/
theorem missing_config_fatal_abort_witness :
    configName Option.none = .error .attributeError ∧
    (NROSNode_main ⟨Option.none, Option.none, Option.none, false, false⟩
        ⟨Option.none, Option.none, Option.none, Option.none⟩ ⟨0, []⟩
        ⟨some []⟩ true).1 = .exited 1 ∧
    Event.hookConfigure ∉ (NROSNode_main
        ⟨Option.none, Option.none, Option.none, false, false⟩
        ⟨Option.none, Option.none, Option.none, Option.none⟩ ⟨0, []⟩
        ⟨some []⟩ true).2 ∧
    Event.hookPrepare ∉ (NROSNode_main
        ⟨Option.none, Option.none, Option.none, false, false⟩
        ⟨Option.none, Option.none, Option.none, Option.none⟩ ⟨0, []⟩
        ⟨some []⟩ true).2 ∧
    Event.busRegistered ∉ (NROSNode_main
        ⟨Option.none, Option.none, Option.none, false, false⟩
        ⟨Option.none, Option.none, Option.none, Option.none⟩ ⟨0, []⟩
        ⟨some []⟩ true).2 ∧
    Event.loopRun ∉ (NROSNode_main
        ⟨Option.none, Option.none, Option.none, false, false⟩
        ⟨Option.none, Option.none, Option.none, Option.none⟩ ⟨0, []⟩
        ⟨some []⟩ true).2 :=
  missing_config_fatal_abort ⟨Option.none, Option.none, Option.none, false, false⟩
    ⟨Option.none, Option.none, Option.none, Option.none⟩ ⟨0, []⟩ ⟨some []⟩ true []
    rfl rfl

/-- C8 counterexample: the falsy non-accepted value `0` is returned as the
empty mapping instead of failing with the type error the claim requires;
likewise the empty list. -/
theorem get_cfg_dict_falsy_counterexample :
    get_cfg_dict [] (.pyint 0) = .ok (.pydict []) ∧
    get_cfg_dict [] (.pyint 0) ≠ .error .typeError ∧
    get_cfg_dict [] (.pylist 0) = .ok (.pydict []) ∧
    get_cfg_dict [] (.pystr []) = .ok (.pydict []) := by
  refine ⟨rfl, ?_, rfl, rfl⟩
  intro h
  exact Except.noConfusion h

/-- C8 (amended): the configuration normalization first maps every falsy
value (None, False, 0, empty string, empty list, empty dict) to the empty
mapping; beyond that, a mapping is returned unchanged, an open file handle
is parsed as JSON, a path string is opened and parsed as JSON (a missing
path raising the file-open error), any other truthy value fails with the
type error, and malformed JSON fails with the value error. Stated as
equality with the rule written out case by case. -/
theorem get_cfg_dict_eq_amended (fs : JsonFS) (cfg : PyVal) :
    get_cfg_dict fs cfg = cfg_normalize_amended fs cfg := by
  cases cfg with
  | pynone => rfl
  | pybool b => cases b <;> rfl
  | pyint n =>
    by_cases h : n = 0 <;>
      simp [get_cfg_dict, cfg_normalize_amended, pyFalsy, h]
  | pystr s => cases s with
    | nil => rfl
    | cons c cs => rfl
  | pylist size => cases size with
    | zero => rfl
    | succ m => rfl
  | pydict d => cases d with
    | nil => rfl
    | cons p d => rfl
  | pyfile lo => cases lo with
    | none => rfl
    | some d => rfl
